import Mathlib

/-!
Verification of the midihub OLED monitor (`midioled.py`, `fonts.py`).

The MIDI-ingest loop (`monitor_midi`), the renderer's state readout
(`update_display`), the device watcher (`check_for_device_update`,
`filter_device_names`), the scroll computation, and the font loaders are
shallowly embedded below.  Time is modelled as `ℚ` (Python float
timestamps), the Python dict `state['note_timestamps']` as an
association list, and `state['active_notes']` (a Python set of ints) as
a `Finset ℕ`.  The external chord classifier (`detect_chord`, backed by
music21) is an abstract parameter `classify` returning the same tuple
shape the Python function returns; the external font backend is an
abstract loader `String → Option Font`.
-/

namespace Midihub

/-- Constant `NOTE_DEBOUNCE_TIME = 0.03` (midioled.py line 57). -/
def NOTE_DEBOUNCE_TIME : ℚ := 3 / 100

/-- Constant `FLASH_TIME = 0.3` (midioled.py line 58). -/
def FLASH_TIME : ℚ := 3 / 10

/-- Constant `DEVICE_DISPLAY_TIME = 5` seconds (midioled.py line 56). -/
def DEVICE_DISPLAY_TIME : ℚ := 5

/-- Constant `MAX_DEVICE_LINES = 5` (midioled.py line 60). -/
def MAX_DEVICE_LINES : ℕ := 5

/-- Lookup in the `note_timestamps` dict; `dict.get(note, 0)` defaults to 0. -/
def alGet (l : List (ℕ × ℚ)) (k : ℕ) : ℚ :=
  match l with
  | [] => 0
  | (k', v') :: rest => if k' = k then v' else alGet rest k

/-- Update `dict[note] = now`: replace the entry if present, else add it. -/
def alSet (l : List (ℕ × ℚ)) (k : ℕ) (v : ℚ) : List (ℕ × ℚ) :=
  match l with
  | [] => [(k, v)]
  | (k', v') :: rest => if k' = k then (k, v) :: rest else (k', v') :: alSet rest k v

/-- The slice of the shared `state` dict touched by the MIDI thread and read
by the renderer (midioled.py lines 62-87), plus nothing else.  Fields keep
the Python keys' names. -/
structure MState where
  channel : Option ℕ
  cc : Option ℕ
  ccVal : Option ℕ
  activeNotes : Finset ℕ
  noteTimestamps : List (ℕ × ℚ)
  chordName : String
  chordRoot : String
  chordQuality : String
  chordBass : String
  unknownChord : Bool
  lastChordPersist : String
  lastChordTime : ℚ
  bubbleLatchedNotes : List ℕ
  flashCh : ℚ
  flashCc : ℚ
  flashVal : ℚ
  lastChordFlashUntil : ℚ
deriving DecidableEq

/-- The initial `state` dict (midioled.py lines 62-87): empty sets, `None`
values, empty strings, all flash expiries 0. -/
def initState : MState :=
  { channel := none, cc := none, ccVal := none,
    activeNotes := ∅, noteTimestamps := [],
    chordName := "", chordRoot := "", chordQuality := "", chordBass := "",
    unknownChord := false, lastChordPersist := "", lastChordTime := 0,
    bubbleLatchedNotes := [],
    flashCh := 0, flashCc := 0, flashVal := 0, lastChordFlashUntil := 0 }

/-- An incoming mido message, restricted to the three variants
`monitor_midi` inspects. -/
inductive MidiMsg where
  | noteOn (note vel channel : ℕ)
  | noteOff (note channel : ℕ)
  | controlChange (channel control value : ℕ)
deriving DecidableEq

/-- Function `debounce_note_event` (midioled.py lines 335-340): accept iff
`now - last > NOTE_DEBOUNCE_TIME`, stamping the shared per-note timestamp
on acceptance.  Returns (accepted, updated timestamps). -/
def debounceNoteEvent (ts : List (ℕ × ℚ)) (note : ℕ) (now : ℚ) :
    Bool × List (ℕ × ℚ) :=
  if NOTE_DEBOUNCE_TIME < now - alGet ts note then (true, alSet ts note now)
  else (false, ts)

/-- Arming a flash field: `state[...]_flash_until = now + FLASH_TIME`. -/
def flashArm (now : ℚ) : ℚ := now + FLASH_TIME

/-- The note-off arm of the message dispatch (midioled.py lines 378-384),
also reached by `note_on` with velocity 0. -/
def noteOffStep (s : MState) (note channel : ℕ) (now : ℚ) : MState × Bool :=
  let r := debounceNoteEvent s.noteTimestamps note now
  if r.1 then
    ({ s with channel := some (channel + 1),
              activeNotes := s.activeNotes.erase note,
              noteTimestamps := r.2 }, true)
  else (s, false)

/-- One message of the inner drain loop (midioled.py lines 371-393).
Returns the new state and this message's contribution to `note_changed`. -/
def processMsg (s : MState) (msg : MidiMsg) (now : ℚ) : MState × Bool :=
  match msg with
  | .noteOn note vel channel =>
    if 0 < vel then
      let r := debounceNoteEvent s.noteTimestamps note now
      if r.1 then
        ({ s with channel := some (channel + 1),
                  activeNotes := insert note s.activeNotes,
                  noteTimestamps := r.2 }, true)
      else (s, false)
    else
      noteOffStep s note channel now
  | .noteOff note channel => noteOffStep s note channel now
  | .controlChange channel control value =>
    let s1 := { s with channel := some (channel + 1) }
    let s2 := if s.cc ≠ some control then { s1 with flashCc := flashArm now } else s1
    let s3 := if s.ccVal ≠ some value then { s2 with flashVal := flashArm now } else s2
    ({ s3 with cc := some control, ccVal := some value }, false)

/-- Draining all pending messages of one outer-loop iteration; `now` is read
once before the drain (midioled.py line 368) and `note_changed` accumulates
(it is true iff some message in the batch was accepted as a note event). -/
def processMsgs (s : MState) (msgs : List MidiMsg) (now : ℚ) : MState × Bool :=
  match msgs with
  | [] => (s, false)
  | m :: rest =>
    let r := processMsg s m now
    let r2 := processMsgs r.1 rest now
    (r2.1, r.2 || r2.2)

/-- The tuple `detect_chord` returns:
`(chord_str, root, quality, bass, unknown)`. -/
structure ChordResult where
  name : String
  root : String
  quality : String
  bass : String
  unknown : Bool
deriving DecidableEq

/-- Writing one classification into the state (midioled.py lines 402-411 /
419-428): the five chord fields are always overwritten; `last_chord_persist`
and `last_chord_time` only when the result was recognized. -/
def applyChord (classify : List ℕ → ChordResult) (s : MState)
    (notes : List ℕ) (now : ℚ) : MState :=
  let r := classify notes
  let s1 := { s with chordName := r.name, chordRoot := r.root,
                     chordQuality := r.quality, chordBass := r.bass,
                     unknownChord := r.unknown }
  if r.unknown then s1
  else { s1 with lastChordPersist := r.name, lastChordTime := now }

/-- The `if note_changed:` body (midioled.py lines 399-431): latch on
transition to empty (no release-timing condition), re-classify when the
relevant note count is in [3,6], else clear `chord_name`.  `detect_chord`
receives the (sorted) note set; the abstract `classify` takes the sorted
list. -/
def latchLogic (classify : List ℕ → ChordResult) (s : MState)
    (prevActive : Finset ℕ) (now : ℚ) : MState :=
  if s.activeNotes = ∅ ∧ prevActive ≠ ∅ then
    let s1 := { s with bubbleLatchedNotes := prevActive.sort (· ≤ ·) }
    if 3 ≤ prevActive.card ∧ prevActive.card ≤ 6 then
      applyChord classify s1 (prevActive.sort (· ≤ ·)) now
    else { s1 with chordName := "", unknownChord := false }
  else if s.activeNotes ≠ ∅ then
    let sortedNotes := s.activeNotes.sort (· ≤ ·)
    let s1 := { s with bubbleLatchedNotes := [] }
    if 3 ≤ sortedNotes.length ∧ sortedNotes.length ≤ 6 then
      applyChord classify s1 sortedNotes now
    else { s1 with chordName := "", unknownChord := false }
  else s

/-- The `monitor_midi` loop's locals that survive iterations
(`prev_ch`, `prev_active_notes`) together with the shared state. -/
structure LoopState where
  st : MState
  prevCh : Option ℕ
  prevActiveNotes : Finset ℕ
deriving DecidableEq

/-- One full iteration of `monitor_midi`'s MIDI part (midioled.py lines
368-432): drain messages, arm the channel flash on change, then run the
latch/classify logic; `prev_active_notes` is refreshed only under
`note_changed`. -/
def monitorStep (classify : List ℕ → ChordResult) (ls : LoopState)
    (msgs : List MidiMsg) (now : ℚ) : LoopState :=
  let r := processMsgs ls.st msgs now
  let s1 := r.1
  let s2 := if ls.prevCh ≠ s1.channel then { s1 with flashCh := flashArm now } else s1
  if r.2 then
    let s3 := latchLogic classify s2 ls.prevActiveNotes now
    { st := s3, prevCh := s2.channel, prevActiveNotes := s3.activeNotes }
  else
    { st := s2, prevCh := s2.channel, prevActiveNotes := ls.prevActiveNotes }

/-- The loop state at program start: `prev_ch = None`,
`prev_active_notes = set()` (midioled.py lines 346-347). -/
def initLoop : LoopState :=
  { st := initState, prevCh := none, prevActiveNotes := ∅ }

/-- The note values the renderer picks each tick (midioled.py lines
287-298): held notes sorted if any, else the latched notes, else nothing. -/
def noteValsOf (s : MState) : List ℕ :=
  if s.activeNotes ≠ ∅ then s.activeNotes.sort (· ≤ ·)
  else if s.bubbleLatchedNotes ≠ [] then s.bubbleLatchedNotes
  else []

/-- Set `held_set` of the same branch: the held notes when any, else empty
(latched bubbles are drawn non-inverted). -/
def heldSetOf (s : MState) : Finset ℕ :=
  if s.activeNotes ≠ ∅ then s.activeNotes else ∅

/-- The chord-row text (midioled.py lines 313-317): the current
`chord_name` when at least 3 notes are displayed and it is non-empty,
else the persisted last recognized label, else nothing. -/
def chordToDisplay (s : MState) : String :=
  if 3 ≤ (noteValsOf s).length ∧ s.chordName ≠ "" then s.chordName
  else if s.lastChordPersist ≠ "" then s.lastChordPersist
  else ""

/-- The flash readout used everywhere: `now < flash_until` (midioled.py
line 214 for the top row, line 318 for the chord row). -/
def isFlashActive (untilT now : ℚ) : Bool := now < untilT

/-- Invert flag of the `CH` value (draw_toprow, line 214). -/
def chInvert (s : MState) (now : ℚ) : Bool := isFlashActive s.flashCh now

/-- Invert flag of the `CC` value (draw_toprow, line 214). -/
def ccInvert (s : MState) (now : ℚ) : Bool := isFlashActive s.flashCc now

/-- Invert flag of the `VAL` value (draw_toprow, line 214). -/
def valInvert (s : MState) (now : ℚ) : Bool := isFlashActive s.flashVal now

/-- Invert flag of the chord row (update_display, line 318). -/
def chordInvert (s : MState) (now : ℚ) : Bool :=
  isFlashActive s.lastChordFlashUntil now

lemma alGet_alSet (l : List (ℕ × ℚ)) (k : ℕ) (v : ℚ) :
    alGet (alSet l k v) k = v := by
  induction l with
  | nil => simp [alGet, alSet]
  | cons hd tl ih =>
    obtain ⟨k', v'⟩ := hd
    by_cases h : k' = k
    · simp [alGet, alSet, h]
    · simp [alGet, alSet, h, ih]

/-- The debounce gate rejects an event at `now` at most the interval past
the note's stamp, leaving the timestamps untouched. -/
lemma debounceNoteEvent_rejected (ts : List (ℕ × ℚ)) (n : ℕ) (now : ℚ)
    (h : now - alGet ts n ≤ NOTE_DEBOUNCE_TIME) :
    debounceNoteEvent ts n now = (false, ts) := by
  unfold debounceNoteEvent
  rw [if_neg (not_lt.mpr h)]

/-- The debounce gate accepts an event strictly more than the interval past
the note's stamp and re-stamps it. -/
lemma debounceNoteEvent_accepted (ts : List (ℕ × ℚ)) (n : ℕ) (now : ℚ)
    (h : NOTE_DEBOUNCE_TIME < now - alGet ts n) :
    debounceNoteEvent ts n now = (true, alSet ts n now) := by
  unfold debounceNoteEvent
  rw [if_pos h]

/-- A note-on that arrives within the debounce interval of the last stamped
event for that note is rejected without any state change. -/
lemma processMsg_noteOn_rejected (s : MState) (n v c : ℕ) (now : ℚ)
    (hv : 0 < v) (h : now - alGet s.noteTimestamps n ≤ NOTE_DEBOUNCE_TIME) :
    processMsg s (.noteOn n v c) now = (s, false) := by
  simp [processMsg, if_pos hv, debounceNoteEvent_rejected _ _ _ h]

/-- A note-off within the debounce interval is likewise rejected unchanged. -/
lemma noteOffStep_rejected (s : MState) (n c : ℕ) (now : ℚ)
    (h : now - alGet s.noteTimestamps n ≤ NOTE_DEBOUNCE_TIME) :
    noteOffStep s n c now = (s, false) := by
  simp [noteOffStep, debounceNoteEvent_rejected _ _ _ h]

/-- An accepted note-on stamps the note's debounce timestamp with `now` and
inserts the note. -/
lemma processMsg_noteOn_accepted (s : MState) (n v c : ℕ) (now : ℚ)
    (hv : 0 < v) (h : NOTE_DEBOUNCE_TIME < now - alGet s.noteTimestamps n) :
    processMsg s (.noteOn n v c) now =
      ({ s with channel := some (c + 1),
                activeNotes := insert n s.activeNotes,
                noteTimestamps := alSet s.noteTimestamps n now }, true) := by
  simp [processMsg, if_pos hv, debounceNoteEvent_accepted _ _ _ h]

/-- C5: if a `NoteOn(n)` is accepted at time `t`, a second `NoteOn(n)`
arriving at `t'` less than the debounce interval later is discarded: the
state after both events is exactly the state after the first, so only the
first is reflected in `HeldNotes` (and `n` is indeed held). -/
theorem noteOn_debounce_second_discarded
    (s : MState) (n v v' c c' : ℕ) (t t' : ℚ)
    (hv : 0 < v) (hv' : 0 < v')
    (hacc : NOTE_DEBOUNCE_TIME < t - alGet s.noteTimestamps n)
    (hclose : t' - t < NOTE_DEBOUNCE_TIME) :
    processMsg (processMsg s (.noteOn n v c) t).1 (.noteOn n v' c') t' =
      ((processMsg s (.noteOn n v c) t).1, false) ∧
    n ∈ (processMsg s (.noteOn n v c) t).1.activeNotes := by
  rw [processMsg_noteOn_accepted s n v c t hv hacc]
  constructor
  · apply processMsg_noteOn_rejected _ _ _ _ _ hv'
    simpa [alGet_alSet] using le_of_lt hclose
  · exact Finset.mem_insert_self n s.activeNotes

/-- Witness for C5 at a concrete input. -/
theorem noteOn_debounce_second_discarded_witness :
    processMsg (processMsg initState (.noteOn 60 100 0) 1).1
        (.noteOn 60 100 0) (101 / 100) =
      ((processMsg initState (.noteOn 60 100 0) 1).1, false) ∧
    60 ∈ (processMsg initState (.noteOn 60 100 0) 1).1.activeNotes := by
  exact noteOn_debounce_second_discarded initState 60 100 100 0 0 1 (101 / 100)
    (by norm_num) (by norm_num)
    (by norm_num [NOTE_DEBOUNCE_TIME, initState, alGet])
    (by norm_num [NOTE_DEBOUNCE_TIME])

/-- C10: `NoteOn` and `NoteOff` share the same per-note debounce timestamp:
after a `NoteOn(n)` accepted at `t`, a `NoteOff(n)` (or zero-velocity
`NoteOn(n)`) arriving at `t'` with `t' - t ≤` the debounce interval is
discarded, so `n` stays in `HeldNotes` although the key was released. -/
theorem noteOff_shares_debounce_timestamp
    (s : MState) (n v c c' : ℕ) (t t' : ℚ)
    (hv : 0 < v)
    (hacc : NOTE_DEBOUNCE_TIME < t - alGet s.noteTimestamps n)
    (hclose : t' - t ≤ NOTE_DEBOUNCE_TIME) :
    processMsg (processMsg s (.noteOn n v c) t).1 (.noteOff n c') t' =
      ((processMsg s (.noteOn n v c) t).1, false) ∧
    processMsg (processMsg s (.noteOn n v c) t).1 (.noteOn n 0 c') t' =
      ((processMsg s (.noteOn n v c) t).1, false) ∧
    n ∈ (processMsg s (.noteOn n v c) t).1.activeNotes := by
  rw [processMsg_noteOn_accepted s n v c t hv hacc]
  refine ⟨?_, ?_, Finset.mem_insert_self n s.activeNotes⟩
  · exact noteOffStep_rejected _ n c' t' (by simpa [alGet_alSet] using hclose)
  · show noteOffStep _ n c' t' = _
    exact noteOffStep_rejected _ n c' t' (by simpa [alGet_alSet] using hclose)

/-- Witness for C10 at a concrete input. -/
theorem noteOff_shares_debounce_timestamp_witness :
    processMsg (processMsg initState (.noteOn 60 100 0) 1).1
        (.noteOff 60 0) (102 / 100) =
      ((processMsg initState (.noteOn 60 100 0) 1).1, false) ∧
    processMsg (processMsg initState (.noteOn 60 100 0) 1).1
        (.noteOn 60 0 0) (102 / 100) =
      ((processMsg initState (.noteOn 60 100 0) 1).1, false) ∧
    60 ∈ (processMsg initState (.noteOn 60 100 0) 1).1.activeNotes := by
  exact noteOff_shares_debounce_timestamp initState 60 100 0 0 1 (102 / 100)
    (by norm_num)
    (by norm_num [NOTE_DEBOUNCE_TIME, initState, alGet])
    (by norm_num [NOTE_DEBOUNCE_TIME])

lemma processMsgs_nil (s : MState) (now : ℚ) : processMsgs s [] now = (s, false) := rfl

/-- Unfolding one accepted note-on of a drained batch. -/
lemma processMsgs_cons_noteOn (s : MState) (n v c : ℕ) (rest : List MidiMsg)
    (now : ℚ) (hv : 0 < v)
    (h : NOTE_DEBOUNCE_TIME < now - alGet s.noteTimestamps n) :
    processMsgs s (.noteOn n v c :: rest) now =
      ((processMsgs { s with channel := some (c + 1),
                             activeNotes := insert n s.activeNotes,
                             noteTimestamps := alSet s.noteTimestamps n now }
          rest now).1, true) := by
  simp [processMsgs, processMsg_noteOn_accepted s n v c now hv h]

/-- Unfolding one accepted note-off of a drained batch. -/
lemma processMsgs_cons_noteOff (s : MState) (n c : ℕ) (rest : List MidiMsg)
    (now : ℚ) (h : NOTE_DEBOUNCE_TIME < now - alGet s.noteTimestamps n) :
    processMsgs s (.noteOff n c :: rest) now =
      ((processMsgs { s with channel := some (c + 1),
                             activeNotes := s.activeNotes.erase n,
                             noteTimestamps := alSet s.noteTimestamps n now }
          rest now).1, true) := by
  have hs : noteOffStep s n c now =
      ({ s with channel := some (c + 1),
                activeNotes := s.activeNotes.erase n,
                noteTimestamps := alSet s.noteTimestamps n now }, true) := by
    simp [noteOffStep, debounceNoteEvent_accepted _ _ _ h]
  simp [processMsgs, processMsg, hs]

/-- C3 counterexample: a `ControlChange` for controller 1 arriving 10 ms
after the previous accepted event for the same controller is **not**
discarded: it overwrites the stored value (10 becomes 11) and arms the
value flash window, contradicting the claimed debounce. -/
theorem controlChange_debounce_cex :
    ((processMsg (processMsg initState (.controlChange 0 1 10) 1).1
        (.controlChange 0 1 11) (101 / 100)).1.ccVal = some 11) ∧
    ((processMsg initState (.controlChange 0 1 10) 1).1.ccVal = some 10) ∧
    ((processMsg (processMsg initState (.controlChange 0 1 10) 1).1
        (.controlChange 0 1 11) (101 / 100)).1.flashVal = flashArm (101 / 100)) := by
  norm_num [processMsg, initState, flashArm]

/-- C3 amended: `control_change` events are never debounced.  Every such
event unconditionally updates the stored channel/controller/value
(last-write-wins), arms the `cc` flash exactly when the controller id
changed and the `val` flash exactly when the value changed, and touches
nothing else. -/
theorem controlChange_always_applied (s : MState) (c k v : ℕ) (now : ℚ) :
    ((processMsg s (.controlChange c k v) now).1.cc = some k) ∧
    ((processMsg s (.controlChange c k v) now).1.ccVal = some v) ∧
    ((processMsg s (.controlChange c k v) now).1.channel = some (c + 1)) ∧
    ((processMsg s (.controlChange c k v) now).1.flashCc =
      if s.cc ≠ some k then flashArm now else s.flashCc) ∧
    ((processMsg s (.controlChange c k v) now).1.flashVal =
      if s.ccVal ≠ some v then flashArm now else s.flashVal) ∧
    ((processMsg s (.controlChange c k v) now).1.activeNotes = s.activeNotes) ∧
    ((processMsg s (.controlChange c k v) now).1.noteTimestamps = s.noteTimestamps) ∧
    ((processMsg s (.controlChange c k v) now).1.chordName = s.chordName) ∧
    ((processMsg s (.controlChange c k v) now).1.lastChordPersist = s.lastChordPersist) ∧
    ((processMsg s (.controlChange c k v) now).2 = false) := by
  by_cases h1 : s.cc = some k <;> by_cases h2 : s.ccVal = some v <;>
    simp [processMsg, h1, h2]

/-- C6: a flash window armed at `t` reports active at exactly the query
times `t'` with `t' < t + FLASH_TIME`; an unarmed window (expiry 0, the
initial value of all four fields) is inactive at every non-negative query
time; and the renderer's invert flags for the three top-row values and the
chord row are all the very same `now < until` readout. -/
theorem flash_window_exact_duration (s : MState) (t t' : ℚ) :
    (isFlashActive (flashArm t) t' = true ↔ t' < t + FLASH_TIME) ∧
    (0 ≤ t' → isFlashActive 0 t' = false) ∧
    (initState.flashCh = 0 ∧ initState.flashCc = 0 ∧ initState.flashVal = 0 ∧
      initState.lastChordFlashUntil = 0) ∧
    (chInvert s t' = isFlashActive s.flashCh t' ∧
     ccInvert s t' = isFlashActive s.flashCc t' ∧
     valInvert s t' = isFlashActive s.flashVal t' ∧
     chordInvert s t' = isFlashActive s.lastChordFlashUntil t') := by
  refine ⟨?_, ?_, ⟨rfl, rfl, rfl, rfl⟩, rfl, rfl, rfl, rfl⟩
  · simp [isFlashActive, flashArm]
  · intro h
    simp only [isFlashActive, decide_eq_false_iff_not, not_lt]
    linarith

/-- Witness for C6 at a concrete input. -/
theorem flash_window_exact_duration_witness :
    (isFlashActive (flashArm 0) (1 / 10) = true ↔ (1 / 10 : ℚ) < 0 + FLASH_TIME) ∧
    ((0 : ℚ) ≤ 1 / 10 → isFlashActive 0 (1 / 10) = false) ∧
    (initState.flashCh = 0 ∧ initState.flashCc = 0 ∧ initState.flashVal = 0 ∧
      initState.lastChordFlashUntil = 0) ∧
    (chInvert initState (1 / 10) = isFlashActive initState.flashCh (1 / 10) ∧
     ccInvert initState (1 / 10) = isFlashActive initState.flashCc (1 / 10) ∧
     valInvert initState (1 / 10) = isFlashActive initState.flashVal (1 / 10) ∧
     chordInvert initState (1 / 10) =
       isFlashActive initState.lastChordFlashUntil (1 / 10)) :=
  flash_window_exact_duration initState 0 (1 / 10)

/-- A concrete stand-in for the external `detect_chord` classifier, used by
the counterexample traces: any 3-note list is recognized as a C-major
label; every other size comes back unrecognized with a joined note-name
string, the shape of `detect_chord`'s fallback path. -/
def classifyCex (ns : List ℕ) : ChordResult :=
  if ns.length = 3 then
    { name := "CMajor", root := "C", quality := "Major", bass := "C4",
      unknown := false }
  else
    { name := "C4 D4 E4 G4", root := "", quality := "", bass := "",
      unknown := true }

/-- C2 counterexample: pressing six keys at once puts six notes on screen.
`update_display` draws one bubble per held note with no cap and no
eviction, so the displayed-note count exceeds the claimed maximum of 5. -/
theorem display_count_exceeds_max_cex :
    (noteValsOf (monitorStep classifyCex initLoop
        [.noteOn 60 100 0, .noteOn 62 100 0, .noteOn 64 100 0,
         .noteOn 65 100 0, .noteOn 67 100 0, .noteOn 71 100 0] 1).st).length = 6 := by
  have e1 : NOTE_DEBOUNCE_TIME < (1 : ℚ) := by norm_num [NOTE_DEBOUNCE_TIME]
  simp [monitorStep, processMsgs, processMsg, debounceNoteEvent, alGet, alSet,
        latchLogic, applyChord, classifyCex, noteValsOf, initLoop, initState,
        e1, Finset.length_sort]

/-- C2 amended: the renderer never evicts anything.  Every held note is
displayed, and the displayed-note count is the full held count when any
note is held, else the full latched count — it is not limited to 5. -/
theorem display_shows_all_held (s : MState) :
    (∀ n ∈ s.activeNotes, n ∈ noteValsOf s) ∧
    ((noteValsOf s).length =
      if s.activeNotes ≠ ∅ then s.activeNotes.card
      else s.bubbleLatchedNotes.length) := by
  constructor
  · intro n hn
    have hne : s.activeNotes ≠ ∅ := by
      intro h
      rw [h] at hn
      exact absurd hn (Finset.not_mem_empty n)
    simp [noteValsOf, hne, Finset.mem_sort, hn]
  · by_cases h : s.activeNotes = ∅ <;>
      by_cases h2 : s.bubbleLatchedNotes = [] <;>
        simp [noteValsOf, h, h2, Finset.length_sort]

/-- A state with the single note 60 held, used by the C2 witness. -/
def oneNoteState : MState := { initState with activeNotes := insert 60 ∅ }

/-- Witness for C2's amended statement at a concrete input. -/
theorem display_shows_all_held_witness :
    60 ∈ noteValsOf oneNoteState ∧
    (noteValsOf oneNoteState).length =
      if oneNoteState.activeNotes ≠ ∅ then oneNoteState.activeNotes.card
      else oneNoteState.bubbleLatchedNotes.length := by
  refine ⟨(display_shows_all_held oneNoteState).1 60 ?_, ?_⟩
  · simp [oneNoteState]
  · exact (display_shows_all_held oneNoteState).2

/-- C4 counterexample: after a recognized C-major chord (persisted label
"CMajor"), pressing a fourth note makes the classifier return an
unrecognized result whose note-name string is written into `chord_name`;
with four notes on screen the renderer shows that string, not the last
recognized label — which survives only in `last_chord_persist`. -/
theorem unrecognized_overwrites_screen_cex :
    chordToDisplay (monitorStep classifyCex
        (monitorStep classifyCex initLoop
          [.noteOn 60 100 0, .noteOn 64 100 0, .noteOn 67 100 0] 1)
        [.noteOn 61 100 0] 2).st = "C4 D4 E4 G4" ∧
    (monitorStep classifyCex
        (monitorStep classifyCex initLoop
          [.noteOn 60 100 0, .noteOn 64 100 0, .noteOn 67 100 0] 1)
        [.noteOn 61 100 0] 2).st.lastChordPersist = "CMajor" ∧
    (monitorStep classifyCex
        (monitorStep classifyCex initLoop
          [.noteOn 60 100 0, .noteOn 64 100 0, .noteOn 67 100 0] 1)
        [.noteOn 61 100 0] 2).st.unknownChord = true := by
  have e1 : NOTE_DEBOUNCE_TIME < (1 : ℚ) := by norm_num [NOTE_DEBOUNCE_TIME]
  have e2 : NOTE_DEBOUNCE_TIME < (2 : ℚ) := by norm_num [NOTE_DEBOUNCE_TIME]
  simp [monitorStep, processMsgs, processMsg, debounceNoteEvent, alGet, alSet,
        latchLogic, applyChord, classifyCex, noteValsOf, chordToDisplay,
        initLoop, initState, e1, e2, Finset.length_sort]

/-- C4 amended: an Unrecognized classification never overwrites the stored
last-good label (`last_chord_persist`), and that label is what the
renderer shows when fewer than 3 notes are displayed; but when 3 or more
notes are displayed the renderer shows the current `chord_name`, which an
unrecognized evaluation has set to the joined note-name string. -/
theorem unrecognized_keeps_persist (classify : List ℕ → ChordResult)
    (s : MState) (notes : List ℕ) (now : ℚ) :
    ((classify notes).unknown = true →
      (applyChord classify s notes now).lastChordPersist = s.lastChordPersist ∧
      (applyChord classify s notes now).lastChordTime = s.lastChordTime ∧
      (applyChord classify s notes now).chordName = (classify notes).name) ∧
    ((noteValsOf s).length < 3 →
      chordToDisplay s = if s.lastChordPersist ≠ "" then s.lastChordPersist else "") ∧
    (3 ≤ (noteValsOf s).length → s.chordName ≠ "" →
      chordToDisplay s = s.chordName) := by
  refine ⟨?_, ?_, ?_⟩
  · intro h
    simp [applyChord, h]
  · intro h
    have : ¬ (3 ≤ (noteValsOf s).length ∧ s.chordName ≠ "") := by
      intro hc
      exact absurd hc.1 (Nat.not_le.mpr h)
    simp only [chordToDisplay, if_neg this]
  · intro h1 h2
    simp only [chordToDisplay, if_pos (And.intro h1 h2)]

/-- A state with a C-major triad held and a non-empty chord label, used by
the C4 witness. -/
def triadState : MState :=
  { initState with activeNotes := insert 60 (insert 64 (insert 67 ∅)),
                   chordName := "X" }

/-- Witness for C4's amended statement at concrete inputs. -/
theorem unrecognized_keeps_persist_witness :
    ((classifyCex [1, 2]).unknown = true ∧
      (applyChord classifyCex initState [1, 2] 0).lastChordPersist =
        initState.lastChordPersist) ∧
    ((noteValsOf initState).length < 3 ∧
      chordToDisplay initState =
        if initState.lastChordPersist ≠ "" then initState.lastChordPersist else "") ∧
    (3 ≤ (noteValsOf triadState).length ∧
      chordToDisplay triadState = "X") := by
  have hu : (classifyCex [1, 2]).unknown = true := by simp [classifyCex]
  have hlen : (noteValsOf initState).length < 3 := by
    simp [noteValsOf, initState]
  have hlen3 : 3 ≤ (noteValsOf triadState).length := by
    simp [noteValsOf, triadState, Finset.length_sort]
  refine ⟨⟨hu, ((unrecognized_keeps_persist classifyCex initState [1, 2] 0).1 hu).1⟩,
    ⟨hlen, (unrecognized_keeps_persist classifyCex initState [1, 2] 0).2.1 hlen⟩,
    ⟨hlen3, ?_⟩⟩
  exact (unrecognized_keeps_persist classifyCex triadState [1, 2] 0).2.2
    hlen3 (by simp [triadState])

lemma applyChord_bubble (classify : List ℕ → ChordResult) (s : MState)
    (notes : List ℕ) (now : ℚ) :
    (applyChord classify s notes now).bubbleLatchedNotes = s.bubbleLatchedNotes := by
  by_cases h : (classify notes).unknown <;> simp [applyChord, h]

lemma applyChord_active (classify : List ℕ → ChordResult) (s : MState)
    (notes : List ℕ) (now : ℚ) :
    (applyChord classify s notes now).activeNotes = s.activeNotes := by
  by_cases h : (classify notes).unknown <;> simp [applyChord, h]

/-- On the transition to empty, the latch copies the previously held notes
(sorted) into the bubble list, whatever the release timing was. -/
lemma latchLogic_bubble_on_empty (classify : List ℕ → ChordResult) (s : MState)
    (prevActive : Finset ℕ) (now : ℚ)
    (h1 : s.activeNotes = ∅) (h2 : prevActive ≠ ∅) :
    (latchLogic classify s prevActive now).bubbleLatchedNotes =
      prevActive.sort (· ≤ ·) := by
  simp only [latchLogic, if_pos (And.intro h1 h2)]
  by_cases hc : 3 ≤ prevActive.card ∧ prevActive.card ≤ 6
  · simp [hc, applyChord_bubble]
  · simp [hc]

/-- The latch logic never touches the held-note set itself. -/
lemma latchLogic_active (classify : List ℕ → ChordResult) (s : MState)
    (prevActive : Finset ℕ) (now : ℚ) :
    (latchLogic classify s prevActive now).activeNotes = s.activeNotes := by
  by_cases hb : s.activeNotes = ∅ ∧ prevActive ≠ ∅
  · simp only [latchLogic, if_pos hb]
    by_cases hc : 3 ≤ prevActive.card ∧ prevActive.card ≤ 6
    · simp [hc, applyChord_active]
    · simp [hc]
  · by_cases hne : s.activeNotes ≠ ∅
    · simp only [latchLogic, if_neg hb, if_pos hne]
      by_cases hc : 3 ≤ s.activeNotes.card ∧ s.activeNotes.card ≤ 6
      · simp [Finset.length_sort, hc, applyChord_active]
      · simp [Finset.length_sort, hc]
    · simp [latchLogic, hb, hne]

/-- C1 amended, part of the statement: when `HeldNotes` becomes empty the
latched bubble list is exactly the previously held set (sorted, so equal as
a set, order-independent) and is what the renderer then displays; and any
later iteration in which notes are held again clears the latch.  No
release-timing window is consulted and no display-duration bound exists. -/
theorem release_latch_exact (classify : List ℕ → ChordResult)
    (s s2 : MState) (prevActive prev2 : Finset ℕ) (now now2 : ℚ) :
    (s.activeNotes = ∅ → prevActive ≠ ∅ →
      ((latchLogic classify s prevActive now).bubbleLatchedNotes =
          prevActive.sort (· ≤ ·) ∧
        (latchLogic classify s prevActive now).bubbleLatchedNotes.toFinset =
          prevActive ∧
        noteValsOf (latchLogic classify s prevActive now) =
          prevActive.sort (· ≤ ·))) ∧
    (s2.activeNotes ≠ ∅ →
      (latchLogic classify s2 prev2 now2).bubbleLatchedNotes = []) := by
  constructor
  · intro h1 h2
    have hb := latchLogic_bubble_on_empty classify s prevActive now h1 h2
    refine ⟨hb, ?_, ?_⟩
    · rw [hb, Finset.sort_toFinset]
    · have hsort_ne : prevActive.sort (· ≤ ·) ≠ [] := by
        intro hnil
        apply h2
        have : prevActive.card = 0 := by
          rw [← Finset.length_sort (α := ℕ) (· ≤ ·), hnil]
          rfl
        exact Finset.card_eq_zero.mp this
      simp [noteValsOf, latchLogic_active, h1, hb, hsort_ne]
  · intro hne
    have hb : ¬ (s2.activeNotes = ∅ ∧ prev2 ≠ ∅) := by
      intro hc
      exact hne hc.1
    simp only [latchLogic, if_neg hb, if_pos hne]
    by_cases hc : 3 ≤ s2.activeNotes.card ∧ s2.activeNotes.card ≤ 6
    · simp [Finset.length_sort, hc, applyChord_bubble]
    · simp [Finset.length_sort, hc]

/-- The C-major release group used by the C1 witness. -/
def G3 : Finset ℕ := insert 60 (insert 64 (insert 67 ∅))

/-- Witness for C1's amended statement at concrete inputs. -/
theorem release_latch_exact_witness :
    (initState.activeNotes = ∅ ∧ G3 ≠ ∅ ∧ triadState.activeNotes ≠ ∅) ∧
    ((latchLogic classifyCex initState G3 2).bubbleLatchedNotes =
        G3.sort (· ≤ ·) ∧
      (latchLogic classifyCex initState G3 2).bubbleLatchedNotes.toFinset = G3 ∧
      noteValsOf (latchLogic classifyCex initState G3 2) = G3.sort (· ≤ ·)) ∧
    (latchLogic classifyCex triadState ∅ 3).bubbleLatchedNotes = [] := by
  have h1 : initState.activeNotes = ∅ := rfl
  have h2 : G3 ≠ ∅ := by simp [G3]
  have h3 : triadState.activeNotes ≠ ∅ := by simp [triadState]
  exact ⟨⟨h1, h2, h3⟩,
    (release_latch_exact classifyCex initState triadState G3 ∅ 2 3).1 h1 h2,
    (release_latch_exact classifyCex initState triadState G3 ∅ 2 3).2 h3⟩

/-- The C1 counterexample trace: press the C-major triad at t = 1 s,
release all three keys at t = 2 s, then run an idle iteration at t = 12 s
with no input at all. -/
def latchTrace : LoopState :=
  monitorStep classifyCex
    (monitorStep classifyCex
      (monitorStep classifyCex initLoop
        [.noteOn 60 100 0, .noteOn 64 100 0, .noteOn 67 100 0] 1)
      [.noteOff 60 0, .noteOff 64 0, .noteOff 67 0] 2)
    [] 12

/-- C1 counterexample: ten seconds after the chord release — far beyond the
claimed 1.5–2 s latch duration — and with no intervening NoteOn, the three
released notes are still the renderer's displayed notes (no held note
exists), because nothing in the code expires `bubble_latched_notes` by
time. -/
theorem latch_unbounded_display_cex :
    latchTrace.st.activeNotes = ∅ ∧
    (noteValsOf latchTrace.st).length = 3 := by
  have e1 : NOTE_DEBOUNCE_TIME < (1 : ℚ) := by norm_num [NOTE_DEBOUNCE_TIME]
  have e2 : NOTE_DEBOUNCE_TIME < (2 : ℚ) - 1 := by norm_num [NOTE_DEBOUNCE_TIME]
  have hlen : (Finset.sort (fun x1 x2 => x1 ≤ x2)
      (insert 67 (insert 64 (insert 60 (∅ : Finset ℕ))))).length = 3 := by
    rw [Finset.length_sort]
    decide
  have hne : Finset.sort (fun x1 x2 => x1 ≤ x2)
      (insert 67 (insert 64 (insert 60 (∅ : Finset ℕ)))) ≠ [] := by
    intro h
    rw [h] at hlen
    simp at hlen
  simp only [LawfulSingleton.insert_emptyc_eq] at hlen hne
  simp [latchTrace, monitorStep, processMsgs, processMsg, noteOffStep,
        debounceNoteEvent, alGet, alSet, latchLogic, applyChord, classifyCex,
        noteValsOf, initLoop, initState, e1, e2, Finset.length_sort,
        Finset.erase_insert_of_ne, Finset.erase_insert, Finset.erase_empty,
        hlen, hne]

/-- Python's float `%` for a positive modulus: `a - b * floor(a / b)`,
the operation in `elapsed = (time.time() - state[...]) % scroll_period`
(midioled.py line 274). -/
def ratMod (a b : ℚ) : ℚ := a - b * (⌊a / b⌋ : ℚ)

/-- The fractional scroll position in lines (midioled.py lines 272-275):
`(elapsed / scroll_period) * total_scroll` with
`total_scroll = n_devices - MAX_DEVICE_LINES` and
`scroll_period = DEVICE_DISPLAY_TIME`, `elapsed` reduced modulo the period.
Only evaluated when `n_devices > MAX_DEVICE_LINES`. -/
def scrollLines (nDevices : ℕ) (elapsedRaw : ℚ) : ℚ :=
  ratMod elapsedRaw DEVICE_DISPLAY_TIME / DEVICE_DISPLAY_TIME *
    ((nDevices : ℚ) - (MAX_DEVICE_LINES : ℚ))

/-- Assignment `first_line = int(scroll_lines)` (midioled.py line 276). -/
def firstLine (nDevices : ℕ) (elapsedRaw : ℚ) : ℤ :=
  ⌊scrollLines nDevices elapsedRaw⌋

/-- Assignment `pixel_offset = int((scroll_lines - first_line) * line_h)`
(midioled.py line 277). -/
def pixelOffset (nDevices : ℕ) (elapsedRaw : ℚ) (lineH : ℕ) : ℤ :=
  ⌊(scrollLines nDevices elapsedRaw - (firstLine nDevices elapsedRaw : ℚ)) *
    (lineH : ℚ)⌋

lemma ratMod_nonneg (a b : ℚ) (hb : 0 < b) : 0 ≤ ratMod a b := by
  have h1 : (⌊a / b⌋ : ℚ) ≤ a / b := Int.floor_le (a / b)
  have h2 : b * (⌊a / b⌋ : ℚ) ≤ b * (a / b) :=
    mul_le_mul_of_nonneg_left h1 (le_of_lt hb)
  have h3 : b * (a / b) = a := by
    rw [mul_comm]
    exact div_mul_cancel₀ a (ne_of_gt hb)
  unfold ratMod
  linarith

lemma ratMod_lt (a b : ℚ) (hb : 0 < b) : ratMod a b < b := by
  have h1 : a / b < (⌊a / b⌋ : ℚ) + 1 := Int.lt_floor_add_one (a / b)
  have h2 : a < ((⌊a / b⌋ : ℚ) + 1) * b := (div_lt_iff₀ hb).mp h1
  unfold ratMod
  nlinarith

lemma ratMod_eq_self (a b : ℚ) (h0 : 0 ≤ a) (hab : a < b) : ratMod a b = a := by
  have hb : 0 < b := lt_of_le_of_lt h0 hab
  have hfl : ⌊a / b⌋ = 0 := by
    rw [Int.floor_eq_zero_iff]
    constructor
    · exact div_nonneg h0 (le_of_lt hb)
    · exact (div_lt_one hb).mpr hab
  unfold ratMod
  rw [hfl]
  push_cast
  ring

lemma ratMod_add_right (a b : ℚ) (hb : b ≠ 0) : ratMod (a + b) b = ratMod a b := by
  unfold ratMod
  have h : (a + b) / b = a / b + 1 := by
    field_simp
  rw [h, Int.floor_add_one]
  push_cast
  ring

/-- C7 counterexample: with 7 devices, the scroll position is already
non-zero 0.1 s after mode entry (no start delay holding the first page),
and between 4.9 s and 5.1 s it jumps back towards zero (the modulo wraps
and re-scrolls from the top) instead of holding the last page. -/
theorem scroll_no_delay_no_hold_cex :
    0 < scrollLines 7 (1 / 10) ∧
    scrollLines 7 (51 / 10) < scrollLines 7 (49 / 10) := by
  have h1 : ratMod (1 / 10) 5 = 1 / 10 := ratMod_eq_self _ _ (by norm_num) (by norm_num)
  have h2 : ratMod (49 / 10) 5 = 49 / 10 := ratMod_eq_self _ _ (by norm_num) (by norm_num)
  have h3 : ratMod (51 / 10) 5 = 1 / 10 := by
    have he : (51 / 10 : ℚ) = 1 / 10 + 5 := by norm_num
    rw [he, ratMod_add_right _ _ (by norm_num), h1]
  constructor <;>
    · simp only [scrollLines, DEVICE_DISPLAY_TIME, MAX_DEVICE_LINES, h1, h2, h3]
      norm_num

/-- C7 amended: the scroll position is a pure function of elapsed time and
the device count: it stays within `[0, maxOffset)`, is periodic with the
5-second display period (a modulo wrap, not a clamp), and on one period it
is strictly increasing — purely time-proportional, with no start-delay
plateau and no end hold. -/
theorem scroll_time_proportional (n : ℕ) (e e1 e2 : ℚ) (hn : 6 ≤ n) :
    0 ≤ scrollLines n e ∧
    scrollLines n e < (n : ℚ) - (MAX_DEVICE_LINES : ℚ) ∧
    scrollLines n (e + DEVICE_DISPLAY_TIME) = scrollLines n e ∧
    (0 ≤ e1 → e1 < e2 → e2 < DEVICE_DISPLAY_TIME →
      scrollLines n e1 < scrollLines n e2) := by
  have hS : (0 : ℚ) < (n : ℚ) - (MAX_DEVICE_LINES : ℚ) := by
    have : (6 : ℚ) ≤ (n : ℚ) := by exact_mod_cast hn
    simp only [MAX_DEVICE_LINES]
    push_cast
    linarith
  have h5 : (0 : ℚ) < DEVICE_DISPLAY_TIME := by norm_num [DEVICE_DISPLAY_TIME]
  refine ⟨?_, ?_, ?_, ?_⟩
  · exact mul_nonneg
      (div_nonneg (ratMod_nonneg e _ h5) (le_of_lt h5)) (le_of_lt hS)
  · have hlt : ratMod e DEVICE_DISPLAY_TIME / DEVICE_DISPLAY_TIME < 1 :=
      (div_lt_one h5).mpr (ratMod_lt e _ h5)
    calc scrollLines n e
        < 1 * ((n : ℚ) - (MAX_DEVICE_LINES : ℚ)) := by
          exact mul_lt_mul_of_pos_right hlt hS
      _ = (n : ℚ) - (MAX_DEVICE_LINES : ℚ) := one_mul _
  · unfold scrollLines
    rw [ratMod_add_right _ _ (ne_of_gt h5)]
  · intro he1 h12 he2
    unfold scrollLines
    rw [ratMod_eq_self e1 _ he1 (lt_trans h12 he2),
        ratMod_eq_self e2 _ (le_trans he1 (le_of_lt h12)) he2]
    exact mul_lt_mul_of_pos_right
      ((div_lt_div_iff_of_pos_right h5).mpr h12) hS

/-- Witness for C7's amended statement at concrete inputs. -/
theorem scroll_time_proportional_witness :
    (6 ≤ 7 ∧ (0 : ℚ) ≤ 1 / 10 ∧ (1 / 10 : ℚ) < 3 ∧ (3 : ℚ) < DEVICE_DISPLAY_TIME) ∧
    0 ≤ scrollLines 7 2 ∧
    scrollLines 7 2 < (7 : ℚ) - (MAX_DEVICE_LINES : ℚ) ∧
    scrollLines 7 (2 + DEVICE_DISPLAY_TIME) = scrollLines 7 2 ∧
    scrollLines 7 (1 / 10) < scrollLines 7 3 := by
  have h := scroll_time_proportional 7 2 (1 / 10) 3 (by norm_num)
  have hd : (3 : ℚ) < DEVICE_DISPLAY_TIME := by norm_num [DEVICE_DISPLAY_TIME]
  exact ⟨⟨by norm_num, by norm_num, by norm_num, hd⟩,
    h.1, h.2.1, h.2.2.1, h.2.2.2 (by norm_num) (by norm_num) hd⟩

/-- Substring test (`"Through" in name`): splitting on the pattern yields
more than one part iff the pattern occurs. -/
def containsStr (s pat : String) : Bool := 2 ≤ (s.splitOn pat).length

/-- The bracket stripping of `filter_device_names` (midioled.py lines
159-160): when the name contains both `[` and `]`, keep everything before
the last `[` and strip surrounding whitespace. -/
def stripBracketSuffix (name : String) : String :=
  if name.contains (Char.ofNat 91) ∧ name.contains (Char.ofNat 93) then
    (String.intercalate "[" ((name.splitOn "[").dropLast)).trim
  else name

/-- Function `filter_device_names` (midioled.py lines 154-162): drop `Through`
endpoints, strip bracketed suffixes from the rest. -/
def filterDeviceNames (devices : List String) : List String :=
  devices.filterMap (fun name =>
    if containsStr name "Through" then none
    else some (stripBracketSuffix name))

/-- The device-watcher slice of the shared state plus `monitor_midi`'s
device-related locals (`inputs`, `last_device_list`, `shown_at`). -/
structure DevState where
  lastDeviceUpdate : ℚ
  devices : List String
  showDevices : Bool
  deviceScrollTime : ℚ
  inputs : List String
  lastDeviceList : List String
  shownAt : Option ℚ
deriving DecidableEq

/-- Function `check_for_device_update` (midioled.py lines 144-152): compare the
trigger file's mtime (None models `FileNotFoundError`) against the stored
marker, consuming the marker on change. -/
def checkForDeviceUpdate (s : DevState) (mtime : Option ℚ) : Bool × DevState :=
  match mtime with
  | some m =>
    if m ≠ s.lastDeviceUpdate then (true, { s with lastDeviceUpdate := m })
    else (false, s)
  | none => (false, s)

/-- The device part of one `monitor_midi` iteration (midioled.py lines
350-366): on a revision bump (or with no open inputs) re-enumerate; only
when the filtered name list differs from the last observed one replace the
device list, reopen inputs and enter show-devices mode; finally time out
the mode after `DEVICE_DISPLAY_TIME`. -/
def deviceStep (s : DevState) (mtime : Option ℚ) (currentDevices : List String)
    (now : ℚ) : DevState :=
  let r := checkForDeviceUpdate s mtime
  let s1 := r.2
  let s2 :=
    if r.1 || s1.inputs.isEmpty then
      if filterDeviceNames currentDevices ≠ s1.lastDeviceList then
        { s1 with lastDeviceList := filterDeviceNames currentDevices,
                  devices := currentDevices,
                  showDevices := true,
                  inputs := currentDevices.filter
                    (fun nm => ¬ containsStr nm "Through"),
                  shownAt := some now,
                  deviceScrollTime := now }
      else s1
    else s1
  if s2.showDevices then
    match s2.shownAt with
    | some t0 =>
      if DEVICE_DISPLAY_TIME < now - t0 then { s2 with showDevices := false }
      else s2
    | none => s2
  else s2

/-- C8: a revision bump whose re-enumeration yields the same filtered name
list as before causes no mode switch: show-devices mode is not entered,
the device list is untouched, and the input subscriptions are neither
closed nor reopened — only the revision marker is consumed. -/
theorem revision_bump_same_list_no_switch (s : DevState) (m now : ℚ)
    (cur : List String)
    (hm : m ≠ s.lastDeviceUpdate)
    (hlist : filterDeviceNames cur = s.lastDeviceList) :
    (deviceStep s (some m) cur now).devices = s.devices ∧
    (deviceStep s (some m) cur now).inputs = s.inputs ∧
    (deviceStep s (some m) cur now).lastDeviceList = s.lastDeviceList ∧
    (s.showDevices = false → (deviceStep s (some m) cur now).showDevices = false) ∧
    (deviceStep s (some m) cur now).lastDeviceUpdate = m := by
  have hcheck : checkForDeviceUpdate s (some m) =
      (true, { s with lastDeviceUpdate := m }) := by
    simp [checkForDeviceUpdate, hm]
  simp only [deviceStep, hcheck]
  simp only [Bool.true_or, if_true, hlist]
  cases hsa : s.shownAt with
  | none =>
    by_cases hsd : s.showDevices <;> simp [hsa, hsd]
  | some t0 =>
    by_cases hsd : s.showDevices <;>
      by_cases ht : DEVICE_DISPLAY_TIME < now - t0 <;>
        simp [hsa, hsd, ht]

/-- The device-watcher state used by the C8 witness; its
`lastDeviceList` is by construction the filtered current list. -/
def devWitnessState : DevState :=
  { lastDeviceUpdate := 1, devices := ["Foo"], showDevices := false,
    deviceScrollTime := 0, inputs := ["Foo"],
    lastDeviceList := filterDeviceNames ["Foo"], shownAt := none }

/-- Witness for C8 at a concrete input. -/
theorem revision_bump_same_list_no_switch_witness :
    ((2 : ℚ) ≠ devWitnessState.lastDeviceUpdate ∧
      filterDeviceNames ["Foo"] = devWitnessState.lastDeviceList) ∧
    (deviceStep devWitnessState (some 2) ["Foo"] 3).devices =
      devWitnessState.devices ∧
    (deviceStep devWitnessState (some 2) ["Foo"] 3).inputs =
      devWitnessState.inputs ∧
    (deviceStep devWitnessState (some 2) ["Foo"] 3).showDevices = false := by
  have hm : (2 : ℚ) ≠ devWitnessState.lastDeviceUpdate := by
    norm_num [devWitnessState]
  have hl : filterDeviceNames ["Foo"] = devWitnessState.lastDeviceList := rfl
  have h := revision_bump_same_list_no_switch devWitnessState 2 3 ["Foo"] hm hl
  exact ⟨⟨hm, hl⟩, h.1, h.2.1, h.2.2.2.1 rfl⟩

/-- A loaded glyph source: either an actual file or PIL's built-in default
font, the thing `ImageFont.load_default()` returns. -/
inductive Font where
  | loaded (path : String)
  | fallbackDefault
deriving DecidableEq

/-- Path `FONT_INFO_PATH` (midioled.py line 18), relative to the script dir. -/
def FONT_INFO_PATH : String := "fonts/tom-thumb.pil"

/-- Path `FONT_DEVICE_PATH` (midioled.py line 19). -/
def FONT_DEVICE_PATH : String := "fonts/miniwi-8.pil"

/-- Function `try_load_font` (midioled.py lines 24-35) over an abstract loader
(`ImageFont.load`, returning `none` on any exception): on failure with
`fallback=True` (the default, used by both call sites) it returns the
default font; only with `fallback=False` would it return `None`. -/
def tryLoadFont (loads : String → Option Font) (path : String)
    (fallback : Bool) : Option Font :=
  match loads path with
  | some f => some f
  | none => if fallback then some Font.fallbackDefault else none

/-- Module-level font loading of midioled.py (lines 37-38): both fonts are
requested with the fallback enabled, so startup always gets two fonts. -/
def startupFonts (loads : String → Option Font) : Option Font × Option Font :=
  (tryLoadFont loads FONT_INFO_PATH true, tryLoadFont loads FONT_DEVICE_PATH true)

/-- Table `FONT_FILES` of fonts.py (lines 7-18): role, file name, size. -/
def FONT_FILES : List (String × String × ℕ) :=
  [("top_label", "ter-u14n.pil", 14), ("top_value", "ter-u14b.pil", 14),
   ("chord_normal", "ter-u14n.pil", 14), ("chord_bold", "ter-u14b.pil", 14),
   ("note", "ter-u18b.pil", 18), ("device", "ter-u14n.pil", 14)]

/-- The path `load_font` of fonts.py hands to the loader:
`os.path.join(FONT_DIR, fontfile)` with `FONT_DIR = ~/midihub/fonts`. -/
def fontsPath (fname : String) : String := "~/midihub/fonts/" ++ fname

/-- Function `load_fonts` of fonts.py (lines 25-32), iterating over the role map and
raising (modelled as `Except.error`) on the first failing font. -/
def loadFontsGo (loads : String → Option Font) :
    List (String × String × ℕ) → Except String (List (String × Font))
  | [] => Except.ok []
  | entry :: rest =>
    match loads (fontsPath entry.2.1) with
    | some f =>
      match loadFontsGo loads rest with
      | Except.ok l => Except.ok ((entry.1, f) :: l)
      | Except.error e => Except.error e
    | none => Except.error ("Could not load font " ++ entry.2.1)

/-- Function `load_fonts()` entry point of fonts.py. -/
def loadFonts (loads : String → Option Font) :
    Except String (List (String × Font)) :=
  loadFontsGo loads FONT_FILES

/-- C9 counterexample: with a loader that fails on every path (the fonts
are missing), midioled.py's startup does not fail — `try_load_font`
silently substitutes the default font for both required fonts, the exact
runtime handling the claim rules out. -/
theorem font_failure_falls_back_cex :
    tryLoadFont (fun _ => none) FONT_INFO_PATH true = some Font.fallbackDefault ∧
    startupFonts (fun _ => none) =
      (some Font.fallbackDefault, some Font.fallbackDefault) :=
  ⟨rfl, rfl⟩

lemma loadFontsGo_error (loads : String → Option Font)
    (files : List (String × String × ℕ)) (key fname : String) (sz : ℕ)
    (hmem : (key, fname, sz) ∈ files) (hfail : loads (fontsPath fname) = none) :
    ∃ msg, loadFontsGo loads files = Except.error msg := by
  induction files with
  | nil => cases hmem
  | cons hd tl ih =>
    rcases List.mem_cons.mp hmem with he | hm
    · refine ⟨"Could not load font " ++ fname, ?_⟩
      subst he
      simp [loadFontsGo, hfail]
    · cases h : loads (fontsPath hd.2.1) with
      | none => exact ⟨"Could not load font " ++ hd.2.1, by simp [loadFontsGo, h]⟩
      | some f =>
        obtain ⟨msg, hmsg⟩ := ih hm
        exact ⟨msg, by simp [loadFontsGo, h, hmsg]⟩

/-- C9 amended: only fonts.py's `load_fonts` makes a missing font fatal
(it errors out when any configured font fails to load); midioled.py's
`try_load_font` with its default `fallback=True` never fails — it
substitutes the default font at runtime, so the display program starts
anyway. -/
theorem font_fatal_only_in_fonts_module (loads : String → Option Font)
    (key fname : String) (sz : ℕ) :
    (∀ path, tryLoadFont loads path true ≠ none) ∧
    ((key, fname, sz) ∈ FONT_FILES → loads (fontsPath fname) = none →
      ∃ msg, loadFonts loads = Except.error msg) := by
  constructor
  · intro path
    cases h : loads path <;> simp [tryLoadFont, h]
  · intro hmem hfail
    exact loadFontsGo_error loads FONT_FILES key fname sz hmem hfail

/-- Witness for C9's amended statement at concrete inputs. -/
theorem font_fatal_only_in_fonts_module_witness :
    (("top_label", "ter-u14n.pil", 14) ∈ FONT_FILES ∧
      (fun _ => (none : Option Font)) (fontsPath "ter-u14n.pil") = none) ∧
    tryLoadFont (fun _ => none) FONT_DEVICE_PATH true ≠ none ∧
    (∃ msg, loadFonts (fun _ => none) = Except.error msg) := by
  have hmem : ("top_label", "ter-u14n.pil", 14) ∈ FONT_FILES := by
    simp [FONT_FILES]
  have h := font_fatal_only_in_fonts_module (fun _ => none) "top_label"
    "ter-u14n.pil" 14
  exact ⟨⟨hmem, rfl⟩, h.1 FONT_DEVICE_PATH, h.2 hmem rfl⟩

end Midihub
